import Mathlib

/-!
Shallow embedding of the 6502 CPU core of this repository (src/cpu.rs,
src/bus.rs). Machine integers are modelled as Nat, reduced modulo 256 or
65536 exactly where the Rust types convert or wrap. Rust arithmetic that
is written with the plain overflow-checked operators (the bare += and -=
on u8 in the stack code, which trap on overflow when overflow checks are
on, as in the cargo test profile) is modelled with Option; arithmetic the
source writes with wrapping_add is modelled with an explicit modulus.
The bus is the Memory trait of src/bus.rs: a total map from addresses to
bytes, read returning a u8 and write a pointwise update.
-/

namespace Nes

/-- The memory bus seen by the CPU: a total map from addresses to stored
values. Models the Memory trait of src/bus.rs. -/
def Mem : Type := Nat → Nat

/-- bus.read(addr) returns a u8: the stored value reduced modulo 256. -/
def readMem (m : Mem) (a : Nat) : Nat := m a % 256

/-- bus.write(addr, v): pointwise functional update of the map. -/
def writeMem (m : Mem) (a v : Nat) : Mem := fun b => if b = a then v else m b

/-- Flag mask: CARRY = 1, from the CpuFlags bitflags declaration. -/
def CARRY : Nat := 1

/-- Flag mask: ZERO = 1 <<< 1. -/
def ZERO : Nat := 2

/-- Flag mask: INTERRUPT_DISABLE = 1 <<< 2. -/
def INTERRUPT_DISABLE : Nat := 4

/-- Flag mask: DECIMAL_MODE = 1 <<< 3. -/
def DECIMAL_MODE : Nat := 8

/-- Flag mask: BREAK = 1 <<< 4. -/
def BREAK : Nat := 16

/-- Flag mask: UNUSED = 1 <<< 5. -/
def UNUSED : Nat := 32

/-- Flag mask: OVERFLOW = 1 <<< 6. -/
def OVERFLOW : Nat := 64

/-- Flag mask: NEGATIVE = 1 <<< 7. -/
def NEGATIVE : Nat := 128

/-- The CPU state of struct CPU in src/cpu.rs: accumulator, index X,
index Y, program counter (u16), stack pointer (u8), status register
(the CpuFlags byte), and the bus. The Rust struct also carries a 255-byte
array field named stack that no method reads or writes (push_stack and
pull_stack go through the bus), so it is omitted here as dead state. -/
structure CPUState where
  ac : Nat
  x : Nat
  y : Nat
  pc : Nat
  sp : Nat
  sr : Nat
  mem : Mem

/-- CPU::new: pc = 0, sp = 0xFF, registers zero, status = UNUSED with
INTERRUPT_DISABLE (0x24). -/
def CPU_new (m : Mem) : CPUState :=
  { ac := 0, x := 0, y := 0, pc := 0, sp := 0xFF
    sr := Nat.lor UNUSED INTERRUPT_DISABLE, mem := m }

/-- bitflags contains(flag): (bits AND flag) == flag. -/
def get_flag (sr flag : Nat) : Bool := Nat.land sr flag == flag

/-- bitflags set(flag, value): insert (bitwise or) when value is true,
remove (bitwise and with the 8-bit complement of the mask) when false. -/
def set_flag (sr flag : Nat) (value : Bool) : Nat :=
  if value then Nat.lor sr flag else Nat.land sr (255 - flag)

/-- set_zero_and_negative_flag: Zero = (value == 0) first, then
Negative = (value AND 0x80 is nonzero). -/
def set_zero_and_negative_flag (sr value : Nat) : Nat :=
  set_flag (set_flag sr ZERO (value == 0)) NEGATIVE (Nat.land value 0x80 != 0)

/-- CpuFlags::from_bits_truncate keeps exactly the defined flag bits.
All eight bits of the byte are defined flags (CARRY through NEGATIVE),
so truncation keeps the whole low byte of its argument. -/
def cpuflags_from_bits_truncate (v : Nat) : Nat := v % 256

/-- set_p(v): whole-register overwrite of the status byte through
from_bits_truncate. -/
def set_p (s : CPUState) (v : Nat) : CPUState :=
  { s with sr := cpuflags_from_bits_truncate v }

/-- Rust checked u8 subtraction: the bare -= operator traps on underflow
(overflow checks on), so the result is none when b > a. -/
def checkedSub8 (a b : Nat) : Option Nat :=
  if b ≤ a then some (a - b) else none

/-- Rust checked u8 addition: the bare += operator traps when the sum
leaves the u8 range. -/
def checkedAdd8 (a b : Nat) : Option Nat :=
  if a + b ≤ 255 then some (a + b) else none

/-- push_stack(value): write value at 0x0100 + sp on the bus, then
decrement sp with the checked u8 -= operator. -/
def push_stack (s : CPUState) (v : Nat) : Option CPUState :=
  let s1 : CPUState := { s with mem := writeMem s.mem (s.sp + 0x0100) v }
  match checkedSub8 s1.sp 1 with
  | some sp1 => some { s1 with sp := sp1 }
  | none => none

/-- pull_stack(): increment sp with the checked u8 += operator, then
read the byte at 0x0100 + sp on the bus. -/
def pull_stack (s : CPUState) : Option (CPUState × Nat) :=
  match checkedAdd8 s.sp 1 with
  | some sp1 => some ({ s with sp := sp1 }, readMem s.mem (sp1 + 0x0100))
  | none => none

/-- inc_pc: pc advances with wrapping_add(1), i.e. modulo 65536. -/
def inc_pc (s : CPUState) : CPUState := { s with pc := (s.pc + 1) % 65536 }

/-- get_address(lsb, msb): ((msb as u16) <<< 8) | lsb, which for byte
arguments is msb * 256 + lsb. -/
def get_address (lsb msb : Nat) : Nat := msb * 256 + lsb

/-- addr_absolute: read the little-endian operand bytes at pc and pc + 1,
advancing pc past them. -/
def addr_absolute (s : CPUState) : CPUState × Nat :=
  let lsb := readMem s.mem s.pc
  let s1 := inc_pc s
  let msb := readMem s1.mem s1.pc
  let s2 := inc_pc s1
  (s2, get_address lsb msb)

/-- a AND 0xFF00 for a u16 value a: the high byte of a, shifted back into
place, i.e. a / 256 % 256 * 256. -/
def and_ff00 (a : Nat) : Nat := a / 256 % 256 * 256

/-- cross_page_boundary_cycle_penalty: 1 when the (AND 0xFF00) high bytes
of the base and effective addresses differ, else 0. -/
def cross_page_boundary_cycle_penalty (base eff : Nat) : Nat :=
  if and_ff00 base ≠ and_ff00 eff then 1 else 0

/-- addr_absolute_x: absolute base plus X with u16 wrapping_add, paired
with the page-cross penalty. -/
def addr_absolute_x (s : CPUState) : CPUState × Nat × Nat :=
  let (s1, base) := addr_absolute s
  let eff := (base + s1.x) % 65536
  (s1, eff, cross_page_boundary_cycle_penalty base eff)

/-- addr_absolute_y: absolute base plus Y with u16 wrapping_add, paired
with the page-cross penalty. -/
def addr_absolute_y (s : CPUState) : CPUState × Nat × Nat :=
  let (s1, base) := addr_absolute s
  let eff := (base + s1.y) % 65536
  (s1, eff, cross_page_boundary_cycle_penalty base eff)

/-- addr_absolute_indirect: read the pointer, then the target bytes; when
the pointer low byte is 0xFF the high byte of the target is read from
base AND 0xFF00 instead of base + 1; pc is set to the target. -/
def addr_absolute_indirect (s : CPUState) : CPUState :=
  let (s1, base) := addr_absolute s
  let lsb := readMem s1.mem base
  let msb :=
    if base % 256 = 0xFF then readMem s1.mem (and_ff00 base)
    else readMem s1.mem ((base + 1) % 65536)
  { s1 with pc := get_address lsb msb }

/-- addr_zero_page: one operand byte, zero-extended through
get_address(lsb, 0x00). -/
def addr_zero_page (s : CPUState) : CPUState × Nat :=
  let lsb := readMem s.mem s.pc
  let s1 := inc_pc s
  (s1, get_address lsb 0)

/-- addr_zero_page_x: operand byte plus X with u8 wrapping_add, cast to
u16. -/
def addr_zero_page_x (s : CPUState) : CPUState × Nat :=
  let lsb := readMem s.mem s.pc
  let s1 := inc_pc s
  (s1, (lsb + s1.x) % 256)

/-- addr_zero_page_y: operand byte plus Y with u8 wrapping_add, cast to
u16. -/
def addr_zero_page_y (s : CPUState) : CPUState × Nat :=
  let lsb := readMem s.mem s.pc
  let s1 := inc_pc s
  (s1, (lsb + s1.y) % 256)

/-- addr_zero_page_x_indirect: operand plus X wrapping in page 0 gives a
zero-page pointer; the 16-bit target is read from it, the high pointer
byte wrapping within page 0. -/
def addr_zero_page_x_indirect (s : CPUState) : CPUState × Nat :=
  let zp := readMem s.mem s.pc
  let s1 := inc_pc s
  let ptr := (zp + s1.x) % 256
  let lsb := readMem s1.mem ptr
  let msb := readMem s1.mem ((ptr + 1) % 256)
  (s1, get_address lsb msb)

/-- addr_zero_page_y_indirect: read a 16-bit base from the zero-page
pointer, add Y to the low byte with overflowing_add, propagate the carry
into the high byte with wrapping_add, and report the page-cross penalty
between the base and the effective address. -/
def addr_zero_page_y_indirect (s : CPUState) : CPUState × Nat × Nat :=
  let zp := readMem s.mem s.pc
  let s1 := inc_pc s
  let lsb := readMem s1.mem zp
  let msb := readMem s1.mem ((zp + 1) % 256)
  let base := get_address lsb msb
  let newLsb := (s1.y + lsb) % 256
  let carry := if 256 ≤ s1.y + lsb then 1 else 0
  let newMsb := (msb + carry) % 256
  let eff := get_address newLsb newMsb
  (s1, eff, cross_page_boundary_cycle_penalty base eff)

/-- asl(value): shift left within u8, carry = old bit 7. -/
def asl (value : Nat) : Nat × Bool :=
  (value * 2 % 256, Nat.land value 0x80 != 0)

/-- lsr(value): shift right, carry = old bit 0. -/
def lsr (value : Nat) : Nat × Bool :=
  (value / 2, Nat.land value 0x01 != 0)

/-- The two ways the Rust step body can abort: the catch-all match arm
for an opcode with no handler, and a trapped u8 overflow in the
overflow-checked stack-pointer arithmetic. -/
inductive StepErr where
  | illegalOpcode (op : Nat)
  | u8Overflow
  deriving DecidableEq

/-- The body of the match on the opcode inside step, applied to the state
after the opcode fetch has advanced pc. The arm order, the cycle value of
each arm (0 where the source never assigns cycles), and the state
mutations follow the source text; the catch-all arm is the illegal-opcode
failure. -/
def exec (s : CPUState) (op : Nat) : Except StepErr (CPUState × Nat) :=
  if op = 0xA9 then
    let value := readMem s.mem s.pc
    let s1 := inc_pc s
    .ok ({ s1 with ac := value, sr := set_zero_and_negative_flag s1.sr value }, 2)
  else if op = 0xAD then
    let (s1, address) := addr_absolute s
    let value := readMem s1.mem address
    .ok ({ s1 with ac := value, sr := set_zero_and_negative_flag s1.sr value }, 4)
  else if op = 0xBD then
    let (s1, address, p) := addr_absolute_x s
    let value := readMem s1.mem address
    .ok ({ s1 with ac := value, sr := set_zero_and_negative_flag s1.sr value }, 4 + p)
  else if op = 0xB9 then
    let (s1, address, p) := addr_absolute_y s
    let value := readMem s1.mem address
    .ok ({ s1 with ac := value, sr := set_zero_and_negative_flag s1.sr value }, 4 + p)
  else if op = 0xA5 then
    let (s1, address) := addr_zero_page s
    let value := readMem s1.mem address
    .ok ({ s1 with ac := value, sr := set_zero_and_negative_flag s1.sr value }, 3)
  else if op = 0xB5 then
    let (s1, address) := addr_zero_page_x s
    let value := readMem s1.mem address
    .ok ({ s1 with ac := value, sr := set_zero_and_negative_flag s1.sr value }, 4)
  else if op = 0xA1 then
    let (s1, address) := addr_zero_page_x_indirect s
    let value := readMem s1.mem address
    .ok ({ s1 with ac := value, sr := set_zero_and_negative_flag s1.sr value }, 6)
  else if op = 0xB1 then
    let (s1, address, p) := addr_zero_page_y_indirect s
    let value := readMem s1.mem address
    .ok ({ s1 with ac := value, sr := set_zero_and_negative_flag s1.sr value }, 5 + p)
  else if op = 0xA2 then
    let value := readMem s.mem s.pc
    let s1 := inc_pc s
    .ok ({ s1 with x := value, sr := set_zero_and_negative_flag s1.sr value }, 2)
  else if op = 0xAE then
    let (s1, address) := addr_absolute s
    let value := readMem s1.mem address
    .ok ({ s1 with x := value, sr := set_zero_and_negative_flag s1.sr value }, 4)
  else if op = 0xBE then
    let (s1, address, p) := addr_absolute_y s
    let value := readMem s1.mem address
    .ok ({ s1 with x := value, sr := set_zero_and_negative_flag s1.sr value }, 4 + p)
  else if op = 0xA6 then
    let (s1, address) := addr_zero_page s
    let value := readMem s1.mem address
    .ok ({ s1 with x := value, sr := set_zero_and_negative_flag s1.sr value }, 3)
  else if op = 0xB6 then
    let (s1, address) := addr_zero_page_y s
    let value := readMem s1.mem address
    .ok ({ s1 with x := value, sr := set_zero_and_negative_flag s1.sr value }, 4)
  else if op = 0xA0 then
    let value := readMem s.mem s.pc
    let s1 := inc_pc s
    .ok ({ s1 with y := value, sr := set_zero_and_negative_flag s1.sr value }, 2)
  else if op = 0xAC then
    let (s1, address) := addr_absolute s
    let value := readMem s1.mem address
    .ok ({ s1 with y := value, sr := set_zero_and_negative_flag s1.sr value }, 4)
  else if op = 0xBC then
    let (s1, address, p) := addr_absolute_x s
    let value := readMem s1.mem address
    .ok ({ s1 with y := value, sr := set_zero_and_negative_flag s1.sr value }, 4 + p)
  else if op = 0xA4 then
    let (s1, address) := addr_zero_page s
    let value := readMem s1.mem address
    .ok ({ s1 with y := value, sr := set_zero_and_negative_flag s1.sr value }, 3)
  else if op = 0xB4 then
    let (s1, address) := addr_zero_page_x s
    let value := readMem s1.mem address
    .ok ({ s1 with y := value, sr := set_zero_and_negative_flag s1.sr value }, 4)
  else if op = 0x8D then
    let (s1, address) := addr_absolute s
    .ok ({ s1 with mem := writeMem s1.mem address s1.ac }, 4)
  else if op = 0x9D then
    let (s1, address, _) := addr_absolute_x s
    .ok ({ s1 with mem := writeMem s1.mem address s1.ac }, 5)
  else if op = 0x99 then
    let (s1, address, _) := addr_absolute_y s
    .ok ({ s1 with mem := writeMem s1.mem address s1.ac }, 5)
  else if op = 0x85 then
    let (s1, address) := addr_zero_page s
    .ok ({ s1 with mem := writeMem s1.mem address s1.ac }, 3)
  else if op = 0x95 then
    let (s1, address) := addr_zero_page_x s
    .ok ({ s1 with mem := writeMem s1.mem address s1.ac }, 4)
  else if op = 0x81 then
    let (s1, address) := addr_zero_page_x_indirect s
    .ok ({ s1 with mem := writeMem s1.mem address s1.ac }, 6)
  else if op = 0x91 then
    let (s1, address, _) := addr_zero_page_y_indirect s
    .ok ({ s1 with mem := writeMem s1.mem address s1.ac }, 6)
  else if op = 0x8E then
    let (s1, address) := addr_absolute s
    .ok ({ s1 with mem := writeMem s1.mem address s1.x }, 3)
  else if op = 0x86 then
    let (s1, address) := addr_zero_page s
    .ok ({ s1 with mem := writeMem s1.mem address s1.x }, 2)
  else if op = 0x96 then
    let (s1, address) := addr_zero_page_y s
    .ok ({ s1 with mem := writeMem s1.mem address s1.x }, 2)
  else if op = 0x8C then
    let (s1, address) := addr_absolute s
    .ok ({ s1 with mem := writeMem s1.mem address s1.y }, 4)
  else if op = 0x84 then
    let (s1, address) := addr_zero_page s
    .ok ({ s1 with mem := writeMem s1.mem address s1.y }, 3)
  else if op = 0x94 then
    let (s1, address) := addr_zero_page_x s
    .ok ({ s1 with mem := writeMem s1.mem address s1.y }, 4)
  else if op = 0xAA then
    .ok ({ s with x := s.ac, sr := set_zero_and_negative_flag s.sr s.ac }, 0)
  else if op = 0xA8 then
    .ok ({ s with y := s.ac, sr := set_zero_and_negative_flag s.sr s.ac }, 0)
  else if op = 0xBA then
    .ok ({ s with x := s.sp, sr := set_zero_and_negative_flag s.sr s.sp }, 0)
  else if op = 0x8A then
    .ok ({ s with ac := s.x, sr := set_zero_and_negative_flag s.sr s.x }, 0)
  else if op = 0x9A then
    .ok ({ s with sp := s.x }, 0)
  else if op = 0x98 then
    .ok ({ s with ac := s.y, sr := set_zero_and_negative_flag s.sr s.y }, 0)
  else if op = 0x48 then
    match push_stack s s.ac with
    | some s1 => .ok (s1, 0)
    | none => .error .u8Overflow
  else if op = 0x08 then
    match push_stack s s.sr with
    | some s1 => .ok (s1, 0)
    | none => .error .u8Overflow
  else if op = 0x68 then
    match pull_stack s with
    | some (s1, v) =>
        .ok ({ s1 with ac := v, sr := set_zero_and_negative_flag s1.sr v }, 0)
    | none => .error .u8Overflow
  else if op = 0x28 then
    match pull_stack s with
    | some (s1, v) => .ok ({ s1 with sr := cpuflags_from_bits_truncate v }, 0)
    | none => .error .u8Overflow
  else if op = 0x0A then
    let value := s.ac
    let (newValue, carryFlag) := asl value
    let sr1 := set_flag s.sr CARRY carryFlag
    .ok ({ s with ac := newValue, sr := set_zero_and_negative_flag sr1 newValue }, 0)
  else if op = 0x0E then
    let (s1, address) := addr_absolute s
    let value := readMem s1.mem address
    let (newValue, carryFlag) := asl value
    let sr1 := set_flag s1.sr CARRY carryFlag
    .ok ({ s1 with mem := writeMem s1.mem address newValue
                   sr := set_zero_and_negative_flag sr1 newValue }, 0)
  else if op = 0x1E then
    let (s1, address, _) := addr_absolute_x s
    let value := readMem s1.mem address
    let (newValue, carryFlag) := asl value
    let sr1 := set_flag s1.sr CARRY carryFlag
    .ok ({ s1 with mem := writeMem s1.mem address newValue
                   sr := set_zero_and_negative_flag sr1 newValue }, 0)
  else if op = 0x06 then
    let (s1, address) := addr_zero_page s
    let value := readMem s1.mem address
    let (newValue, carryFlag) := asl value
    let sr1 := set_flag s1.sr CARRY carryFlag
    .ok ({ s1 with mem := writeMem s1.mem address newValue
                   sr := set_zero_and_negative_flag sr1 newValue }, 0)
  else if op = 0x16 then
    let (s1, address) := addr_zero_page_x s
    let value := readMem s1.mem address
    let (newValue, carryFlag) := asl value
    let sr1 := set_flag s1.sr CARRY carryFlag
    .ok ({ s1 with mem := writeMem s1.mem address newValue
                   sr := set_zero_and_negative_flag sr1 newValue }, 0)
  else if op = 0x4A then
    let value := s.ac
    let (newValue, carry) := lsr value
    let sr1 := set_flag s.sr CARRY carry
    .ok ({ s with ac := newValue, sr := set_zero_and_negative_flag sr1 newValue }, 0)
  else if op = 0x4E then
    let (s1, address) := addr_absolute s
    let value := readMem s1.mem address
    let (newValue, carry) := lsr value
    let sr1 := set_flag s1.sr CARRY carry
    .ok ({ s1 with mem := writeMem s1.mem address newValue
                   sr := set_zero_and_negative_flag sr1 newValue }, 0)
  else if op = 0x5E then
    let (s1, address, _) := addr_absolute_x s
    let value := readMem s1.mem address
    let (newValue, carry) := lsr value
    let sr1 := set_flag s1.sr CARRY carry
    .ok ({ s1 with mem := writeMem s1.mem address newValue
                   sr := set_zero_and_negative_flag sr1 newValue }, 0)
  else if op = 0x46 then
    let (s1, address) := addr_zero_page s
    let value := readMem s1.mem address
    let (newValue, carry) := lsr value
    let sr1 := set_flag s1.sr CARRY carry
    .ok ({ s1 with mem := writeMem s1.mem address newValue
                   sr := set_zero_and_negative_flag sr1 newValue }, 0)
  else if op = 0x56 then
    let (s1, address) := addr_zero_page_x s
    let value := readMem s1.mem address
    let (newValue, carry) := lsr value
    let sr1 := set_flag s1.sr CARRY carry
    .ok ({ s1 with mem := writeMem s1.mem address newValue
                   sr := set_zero_and_negative_flag sr1 newValue }, 0)
  else .error (.illegalOpcode op)

/-- step(): fetch the opcode byte at pc, advance pc, then run the decoded
arm and return the cycle count. -/
def step (s : CPUState) : Except StepErr (CPUState × Nat) :=
  let op := readMem s.mem s.pc
  exec (inc_pc s) op

/-- The cycle count of a successful step result. -/
def cyclesOf : Except StepErr (CPUState × Nat) → Option Nat
  | .ok (_, c) => some c
  | .error _ => none

/-- The opcode bytes that have a match arm in step, in source order. -/
def validOpcodes : List Nat :=
  [0xA9, 0xAD, 0xBD, 0xB9, 0xA5, 0xB5, 0xA1, 0xB1,
   0xA2, 0xAE, 0xBE, 0xA6, 0xB6,
   0xA0, 0xAC, 0xBC, 0xA4, 0xB4,
   0x8D, 0x9D, 0x99, 0x85, 0x95, 0x81, 0x91,
   0x8E, 0x86, 0x96,
   0x8C, 0x84, 0x94,
   0xAA, 0xA8, 0xBA, 0x8A, 0x9A, 0x98,
   0x48, 0x08, 0x68, 0x28,
   0x0A, 0x0E, 0x1E, 0x06, 0x16,
   0x4A, 0x4E, 0x5E, 0x46, 0x56]

/-- The opcode bytes of the thirteen store instructions (STA, STX, STY)
in source order. -/
def storeOpcodes : List Nat :=
  [0x8D, 0x9D, 0x99, 0x85, 0x95, 0x81, 0x91, 0x8E, 0x86, 0x96, 0x8C, 0x84, 0x94]

/-- The operand word addr_absolute assembles from the bytes at pc and
pc + 1, before pc advances. -/
def fetch16 (s : CPUState) : Nat :=
  get_address (readMem s.mem s.pc) (readMem s.mem ((s.pc + 1) % 65536))

/-- A bus holding zero everywhere. -/
def zeroMem : Mem := fun _ => 0

/-- A bus built from an association list of address and value pairs,
zero elsewhere. -/
def memOf (l : List (Nat × Nat)) : Mem :=
  fun a => (((l.find? (fun p => p.1 = a)).map Prod.snd).getD 0)

/-- A CPU whose stack pointer sits at 0x00, the low end of the stack
page. -/
def stSp0 : CPUState := { CPU_new zeroMem with sp := 0x00 }

/-- A freshly constructed CPU; its stack pointer is 0xFF. -/
def stSpFF : CPUState := CPU_new zeroMem

/-- A CPU about to execute PLP (0x28) with room for the pull. -/
def stPLP : CPUState := { CPU_new (memOf [(0, 0x28)]) with sp := 0x80 }

/-- A CPU whose next absolute operand is 0x00FF, with X = Y = 1. -/
def stC4 : CPUState :=
  { CPU_new (memOf [(0, 0xFF), (1, 0x00)]) with x := 1, y := 1 }

/-- A CPU whose next absolute operand is the pointer 0x12FF, with target
bytes placed at 0x12FF and 0x1200 as in the hardware-bug scenario. -/
def stC5 : CPUState :=
  CPU_new (memOf [(0, 0xFF), (1, 0x12), (0x12FF, 0x21), (0x1200, 0x23)])

/-- A CPU whose next zero-page operand is 0xFD, with X = Y = 4. -/
def stC6 : CPUState := { CPU_new (memOf [(0, 0xFD)]) with x := 4, y := 4 }

/-- A CPU about to execute TAX (0xAA). -/
def stTAX : CPUState := CPU_new (memOf [(0, 0xAA)])

/-- A CPU about to execute PHA (0x48). -/
def stPHA : CPUState := CPU_new (memOf [(0, 0x48)])

/-- A CPU about to execute ASL on the accumulator (0x0A). -/
def stASL : CPUState := CPU_new (memOf [(0, 0x0A)])

/-- A CPU about to execute LSR on the accumulator (0x4A). -/
def stLSR : CPUState := CPU_new (memOf [(0, 0x4A)])

/-- A CPU about to execute STX absolute (0x8E) targeting 0x1234. -/
def stSTXabs : CPUState := CPU_new (memOf [(0, 0x8E), (1, 0x34), (2, 0x12)])

/-- A CPU about to execute STX zero-page (0x86). -/
def stSTXzp : CPUState := CPU_new (memOf [(0, 0x86), (1, 0x40)])

/-- A CPU about to execute STX zero-page indexed by Y (0x96). -/
def stSTXzpY : CPUState := CPU_new (memOf [(0, 0x96), (1, 0x40)])

/-- The LDA absolute,X page-cross scenario: base 0x00FF, X = 1, value
0x99 at the effective address 0x0100. -/
def stLDAabsX : CPUState :=
  { CPU_new (memOf [(0, 0xBD), (1, 0xFF), (2, 0x00), (0x0100, 0x99)]) with x := 1 }

/-- A CPU whose next opcode byte, 0xFF, has no handler. -/
def stIllegal : CPUState := CPU_new (memOf [(0, 0xFF)])

/-- A CPU about to execute LDA immediate 0x80. -/
def stC9 : CPUState := CPU_new (memOf [(0, 0xA9), (1, 0x80)])

/-- A second CPU built with the same register values and bus contents as
stC9. -/
def stC9b : CPUState := CPU_new (memOf [(0, 0xA9), (1, 0x80)])

/-- A CPU about to execute STA absolute (0x8D) targeting 0x1234, with
0xAA in the accumulator. -/
def stC10 : CPUState :=
  { CPU_new (memOf [(0, 0x8D), (1, 0x34), (2, 0x12)]) with ac := 0xAA }

/-- The word addr_absolute assembles is a 16-bit value. -/
theorem fetch16_lt (s : CPUState) : fetch16 s < 65536 := by
  unfold fetch16 get_address readMem
  omega

/-- addr_absolute advances pc twice and returns the fetched word. -/
theorem addr_absolute_eq (s : CPUState) :
    addr_absolute s = (inc_pc (inc_pc s), fetch16 s) := rfl

/-- For 16-bit arguments, the penalty comparison of the (AND 0xFF00)
values is the comparison of the high bytes. -/
theorem penalty_iff (b e : Nat) (hb : b < 65536) (he : e < 65536) :
    (cross_page_boundary_cycle_penalty b e = 1 ↔ b / 256 ≠ e / 256) ∧
    (cross_page_boundary_cycle_penalty b e = 0 ↔ b / 256 = e / 256) := by
  unfold cross_page_boundary_cycle_penalty and_ff00
  split <;> omega

/-- C1: the claim states that for every sp value, including 0x00 and
0xFF, push and pull wrap sp modulo 256 and can never fail. The code
instead decrements and increments sp with the overflow-checked bare u8
operators (unlike inc_pc, which uses wrapping_add), so push at sp = 0x00
underflows and pull at sp = 0xFF overflows: both trap instead of
wrapping. This theorem evaluates the embedding at those two inputs. -/
theorem C1_stack_ops_trap_at_wraparound :
    push_stack stSp0 0x42 = none ∧ pull_stack stSpFF = none := ⟨rfl, rfl⟩

/-- C2 counterexample: writing 0x00 to the status register through the
raw setter leaves the Unused bit reading 0, refuting the claim that it
still reads 1 after every whole-register overwrite. -/
theorem C2_counterexample :
    get_flag (set_p (CPU_new zeroMem) 0x00).sr UNUSED = false := rfl

/-- C2 amended: the Unused bit is 1 at construction, but a whole-register
overwrite (set_p, and PLP through from_bits_truncate) installs the input
byte verbatim, because all eight bits are defined flags and truncation
keeps them all; afterwards the Unused bit reads bit 5 of the input, not
necessarily 1. -/
theorem C2_unused_follows_input_bit5 (s s2 : CPUState) (v : Nat) (hv : v < 256)
    (hop : readMem s2.mem s2.pc = 0x28) (hsp : s2.sp + 1 ≤ 255) :
    get_flag (CPU_new s.mem).sr UNUSED = true ∧
    (set_p s v).sr = v ∧
    (get_flag (set_p s v).sr UNUSED = true ↔ Nat.land v UNUSED = UNUSED) ∧
    step s2 = .ok ({ inc_pc s2 with
                       sp := s2.sp + 1
                       sr := cpuflags_from_bits_truncate
                         (readMem s2.mem (s2.sp + 1 + 0x0100)) }, 0) ∧
    cpuflags_from_bits_truncate (readMem s2.mem (s2.sp + 1 + 0x0100)) =
      readMem s2.mem (s2.sp + 1 + 0x0100) := by
  have hsr : (set_p s v).sr = v := by
    show cpuflags_from_bits_truncate v = v
    exact Nat.mod_eq_of_lt hv
  have hpull : pull_stack (inc_pc s2) =
      some ({ inc_pc s2 with sp := s2.sp + 1 },
            readMem s2.mem (s2.sp + 1 + 0x0100)) := by
    have hsp2 : (inc_pc s2).sp + 1 ≤ 255 := hsp
    unfold pull_stack checkedAdd8
    rw [if_pos hsp2]
    rfl
  have h36 : (CPU_new s.mem).sr = 36 := rfl
  refine ⟨by rw [h36]; decide, hsr, ?_, ?_, ?_⟩
  · rw [hsr]
    simp [get_flag]
  · show exec (inc_pc s2) (readMem s2.mem s2.pc) = _
    rw [hop]
    simp [exec, hpull]
  · unfold cpuflags_from_bits_truncate readMem
    omega

/-- C3: the claim states every defined opcode returns its nonzero
hardware base cycle cost (TAX 2, PHA 3, ASL A 2, LSR A 2, STX absolute 4,
STX zero-page 3, STX zero-page-Y 4). The code never assigns cycles in the
transfer, stack and shift arms, so they return 0, and the STX arms return
3, 2 and 2. The last conjunct shows the LDA absolute,X page-cross
scenario named by the claim does return 5. -/
theorem C3_cycle_counts_diverge :
    cyclesOf (step stTAX) = some 0 ∧
    cyclesOf (step stPHA) = some 0 ∧
    cyclesOf (step stASL) = some 0 ∧
    cyclesOf (step stLSR) = some 0 ∧
    cyclesOf (step stSTXabs) = some 3 ∧
    cyclesOf (step stSTXzp) = some 2 ∧
    cyclesOf (step stSTXzpY) = some 2 ∧
    cyclesOf (step stLDAabsX) = some 5 :=
  ⟨rfl, rfl, rfl, rfl, rfl, rfl, rfl, rfl⟩

/-- C4: for every 16-bit base (the fetched absolute operand) and every
8-bit index in X and Y, absolute indexed addressing yields effective
address (base + index) mod 65536, and the penalty is 1 exactly when the
high byte of the base differs from the high byte of the effective
address, 0 exactly when they agree. -/
theorem C4_absolute_indexed_addressing (s : CPUState) (base idx : Nat)
    (hbase : fetch16 s = base) (hx : s.x = idx) (hy : s.y = idx)
    (hidx : idx < 256) :
    (addr_absolute_x s).2.1 = (base + idx) % 65536 ∧
    ((addr_absolute_x s).2.2 = 1 ↔ base / 256 ≠ ((base + idx) % 65536) / 256) ∧
    ((addr_absolute_x s).2.2 = 0 ↔ base / 256 = ((base + idx) % 65536) / 256) ∧
    (addr_absolute_y s).2.1 = (base + idx) % 65536 ∧
    ((addr_absolute_y s).2.2 = 1 ↔ base / 256 ≠ ((base + idx) % 65536) / 256) ∧
    ((addr_absolute_y s).2.2 = 0 ↔ base / 256 = ((base + idx) % 65536) / 256) := by
  have hb : base < 65536 := hbase ▸ fetch16_lt s
  have he : (base + idx) % 65536 < 65536 := Nat.mod_lt _ (by norm_num)
  have hxeq : addr_absolute_x s =
      (inc_pc (inc_pc s), (fetch16 s + s.x) % 65536,
       cross_page_boundary_cycle_penalty (fetch16 s)
         ((fetch16 s + s.x) % 65536)) := rfl
  have hyeq : addr_absolute_y s =
      (inc_pc (inc_pc s), (fetch16 s + s.y) % 65536,
       cross_page_boundary_cycle_penalty (fetch16 s)
         ((fetch16 s + s.y) % 65536)) := rfl
  rw [hxeq, hyeq, hbase, hx, hy]
  obtain ⟨p1, p0⟩ := penalty_iff base ((base + idx) % 65536) hb he
  exact ⟨rfl, p1, p0, rfl, p1, p0⟩

/-- C5: absolute-indirect addressing with a fetched pointer whose low
byte is 0xFF reads the target high byte from the start of the same page
(base AND 0xFF00, which is base / 256 * 256), an address distinct from
base + 1; for any other low byte it reads the high byte from base + 1.
The low byte always comes from base itself. -/
theorem C5_absolute_indirect_page_wrap (s : CPUState) (base : Nat)
    (hbase : fetch16 s = base) :
    (base % 256 = 0xFF →
      (addr_absolute_indirect s).pc =
        get_address (readMem s.mem base) (readMem s.mem (base / 256 * 256)) ∧
      base / 256 * 256 ≠ (base + 1) % 65536) ∧
    (base % 256 ≠ 0xFF →
      (addr_absolute_indirect s).pc =
        get_address (readMem s.mem base)
          (readMem s.mem ((base + 1) % 65536))) := by
  have hb : base < 65536 := hbase ▸ fetch16_lt s
  have hpc : (addr_absolute_indirect s).pc =
      get_address (readMem s.mem (fetch16 s))
        (if fetch16 s % 256 = 0xFF then readMem s.mem (and_ff00 (fetch16 s))
         else readMem s.mem ((fetch16 s + 1) % 65536)) := rfl
  rw [hbase] at hpc
  constructor
  · intro h
    have hff : and_ff00 base = base / 256 * 256 := by
      unfold and_ff00
      omega
    refine ⟨?_, by omega⟩
    rw [hpc, if_pos h, hff]
  · intro h
    rw [hpc, if_neg h]

/-- C6: zero-page indexed addressing returns (operand + index) mod 256,
whose high byte is 0x00 — the effective address never leaves page 0, for
both the X and the Y variant. -/
theorem C6_zero_page_indexed (s : CPUState) (base idx : Nat)
    (hbase : readMem s.mem s.pc = base) (hx : s.x = idx) (hy : s.y = idx)
    (hidx : idx < 256) :
    (addr_zero_page_x s).2 = (base + idx) % 256 ∧
    (addr_zero_page_x s).2 / 256 = 0 ∧
    (addr_zero_page_y s).2 = (base + idx) % 256 ∧
    (addr_zero_page_y s).2 / 256 = 0 := by
  have ex : (addr_zero_page_x s).2 = (readMem s.mem s.pc + s.x) % 256 := rfl
  have ey : (addr_zero_page_y s).2 = (readMem s.mem s.pc + s.y) % 256 := rfl
  rw [ex, ey, hbase, hx, hy]
  exact ⟨rfl, by omega, rfl, by omega⟩

/-- C7 counterexample: starting at sp = 0x00, push(0x42) followed by
pull() does not return 0x42 and restore sp — the push traps on the
checked u8 decrement, so the round trip fails. -/
theorem C7_counterexample :
    (push_stack stSp0 0x42).bind pull_stack = none := rfl

/-- C7 amended: for every byte v and every starting stack pointer from
0x01 to 0xFF (every u8 value at which the checked decrement does not
trap), push(v) then pull() returns v and restores sp to its original
value. -/
theorem C7_push_pull_roundtrip (s : CPUState) (v : Nat) (hv : v < 256)
    (hsp1 : 1 ≤ s.sp) (hsp2 : s.sp ≤ 255) :
    ∃ s1 s2, push_stack s v = some s1 ∧ pull_stack s1 = some (s2, v) ∧
      s2.sp = s.sp := by
  have hsub : checkedSub8 s.sp 1 = some (s.sp - 1) := by
    unfold checkedSub8
    rw [if_pos hsp1]
  have hadd : checkedAdd8 (s.sp - 1) 1 = some (s.sp - 1 + 1) := by
    unfold checkedAdd8
    rw [if_pos (by omega)]
  refine ⟨{ s with mem := writeMem s.mem (s.sp + 0x0100) v, sp := s.sp - 1 },
          { s with mem := writeMem s.mem (s.sp + 0x0100) v, sp := s.sp - 1 + 1 },
          ?_, ?_, ?_⟩
  · have hpu : push_stack s v =
        (match checkedSub8 s.sp 1 with
         | some sp1 =>
             some { s with mem := writeMem s.mem (s.sp + 0x0100) v, sp := sp1 }
         | none => none) := rfl
    rw [hpu, hsub]
  · have hpl : pull_stack
        { s with mem := writeMem s.mem (s.sp + 0x0100) v, sp := s.sp - 1 } =
        (match checkedAdd8 (s.sp - 1) 1 with
         | some sp1 =>
             some ({ s with mem := writeMem s.mem (s.sp + 0x0100) v, sp := sp1 },
                   readMem (writeMem s.mem (s.sp + 0x0100) v) (sp1 + 0x0100))
         | none => none) := rfl
    rw [hpl, hadd]
    have hspe : s.sp - 1 + 1 = s.sp := by omega
    rw [hspe]
    have hread : readMem (writeMem s.mem (s.sp + 0x0100) v) (s.sp + 0x0100) = v := by
      unfold readMem writeMem
      rw [if_pos rfl]
      exact Nat.mod_eq_of_lt hv
    show some ({ s with mem := writeMem s.mem (s.sp + 0x0100) v, sp := s.sp },
               readMem (writeMem s.mem (s.sp + 0x0100) v) (s.sp + 0x0100)) =
         some ({ s with mem := writeMem s.mem (s.sp + 0x0100) v, sp := s.sp }, v)
    rw [hread]
  · show s.sp - 1 + 1 = s.sp
    omega

/-- C8: for every state whose next opcode byte has no handler in the
dispatch table, step returns the illegal-opcode failure from the
catch-all arm; the error result carries no successor state, so no state
mutation is observable and no defined-opcode behavior is reached. -/
theorem C8_illegal_opcode_halts (s : CPUState)
    (h : readMem s.mem s.pc ∉ validOpcodes) :
    step s = .error (.illegalOpcode (readMem s.mem s.pc)) := by
  simp only [validOpcodes, List.mem_cons, List.not_mem_nil, or_false,
             not_or] at h
  simp [step, exec, h]

/-- C9: step is deterministic — two CPUs that agree on every register,
every flag and every memory cell produce the same step result: the same
mutations and the same cycle count. -/
theorem C9_step_deterministic (s1 s2 : CPUState)
    (hac : s1.ac = s2.ac) (hx : s1.x = s2.x) (hy : s1.y = s2.y)
    (hpc : s1.pc = s2.pc) (hsp : s1.sp = s2.sp) (hsr : s1.sr = s2.sr)
    (hmem : ∀ a, s1.mem a = s2.mem a) :
    step s1 = step s2 := by
  have hm : s1.mem = s2.mem := funext hmem
  have hs : s1 = s2 := by
    cases s1
    cases s2
    simp_all
  rw [hs]

/-- C10: every store opcode leaves the accumulator, X, Y, stack pointer
and the whole status byte unchanged, and mutates memory only at the
computed effective address, where it deposits the value of the stored
register (A, X or Y). -/
theorem C10_store_frame_effect (s : CPUState)
    (hop : readMem s.mem s.pc ∈ storeOpcodes) :
    ∃ s1 c a,
      step s = .ok (s1, c) ∧
      s1.ac = s.ac ∧ s1.x = s.x ∧ s1.y = s.y ∧ s1.sp = s.sp ∧ s1.sr = s.sr ∧
      (s1.mem a = s.ac ∨ s1.mem a = s.x ∨ s1.mem a = s.y) ∧
      (∀ b, b ≠ a → s1.mem b = s.mem b) := by
  simp only [storeOpcodes, List.mem_cons, List.not_mem_nil, or_false] at hop
  rcases hop with h|h|h|h|h|h|h|h|h|h|h|h|h <;>
  · have hstep : step s = exec (inc_pc s) (readMem s.mem s.pc) := rfl
    rw [hstep, h]
    first
    | exact ⟨_, _, _, rfl, rfl, rfl, rfl, rfl, rfl, Or.inl (if_pos rfl),
             fun b hb => if_neg hb⟩
    | exact ⟨_, _, _, rfl, rfl, rfl, rfl, rfl, rfl, Or.inr (Or.inl (if_pos rfl)),
             fun b hb => if_neg hb⟩
    | exact ⟨_, _, _, rfl, rfl, rfl, rfl, rfl, rfl, Or.inr (Or.inr (if_pos rfl)),
             fun b hb => if_neg hb⟩

/-- C2 witness: the amended theorem instantiated at input byte 0x00 and
the concrete PLP state. -/
theorem C2_witness :
    (set_p (CPU_new zeroMem) 0x00).sr = 0x00 :=
  (C2_unused_follows_input_bit5 (CPU_new zeroMem) stPLP 0x00 (by decide) rfl
    (by decide)).2.1

/-- C4 witness: base 0x00FF with index 1 crosses a page, giving effective
address 0x0100 and penalty 1. -/
theorem C4_witness :
    (addr_absolute_x stC4).2.1 = (0x00FF + 1) % 65536 ∧
    (addr_absolute_x stC4).2.2 = 1 := by
  have h := C4_absolute_indexed_addressing stC4 0x00FF 1 rfl rfl rfl (by decide)
  exact ⟨h.1, h.2.1.mpr (by decide)⟩

/-- C5 witness: the hardware-bug scenario at pointer 0x12FF. -/
theorem C5_witness :
    (addr_absolute_indirect stC5).pc =
      get_address (readMem stC5.mem 0x12FF)
        (readMem stC5.mem (0x12FF / 256 * 256)) :=
  ((C5_absolute_indirect_page_wrap stC5 0x12FF rfl).1 (by decide)).1

/-- C6 witness: operand 0xFD with index 4 wraps to 0x0001 within page
0. -/
theorem C6_witness :
    (addr_zero_page_x stC6).2 = (0xFD + 4) % 256 :=
  (C6_zero_page_indexed stC6 0xFD 4 rfl rfl rfl (by decide)).1

/-- C7 witness: the amended round trip at sp = 0xFF with value 0x12. -/
theorem C7_witness :
    ∃ s1 s2, push_stack stSpFF 0x12 = some s1 ∧
      pull_stack s1 = some (s2, 0x12) ∧ s2.sp = stSpFF.sp :=
  C7_push_pull_roundtrip stSpFF 0x12 (by decide) (by decide) (by decide)

/-- C8 witness: opcode byte 0xFF has no handler and yields the
illegal-opcode failure. -/
theorem C8_witness :
    step stIllegal =
      .error (.illegalOpcode (readMem stIllegal.mem stIllegal.pc)) :=
  C8_illegal_opcode_halts stIllegal (by decide)

/-- C9 witness: two separately constructed but equal states step to the
same result. -/
theorem C9_witness : step stC9 = step stC9b :=
  C9_step_deterministic stC9 stC9b rfl rfl rfl rfl rfl rfl (fun _ => rfl)

/-- C10 witness: STA absolute at the concrete state stC10. -/
theorem C10_witness :
    ∃ s1 c a,
      step stC10 = .ok (s1, c) ∧
      s1.ac = stC10.ac ∧ s1.x = stC10.x ∧ s1.y = stC10.y ∧
      s1.sp = stC10.sp ∧ s1.sr = stC10.sr ∧
      (s1.mem a = stC10.ac ∨ s1.mem a = stC10.x ∨ s1.mem a = stC10.y) ∧
      (∀ b, b ≠ a → s1.mem b = stC10.mem b) :=
  C10_store_frame_effect stC10 (by decide)

end Nes
